import Mathlib

/-!
Verification development for the MedLink emergency-response backend
(src/main.py, src/database.py).

Modelling conventions:
* Python floats are modelled as exact rationals (ℚ); Python ints as ℤ/ℕ.
* The haversine great-circle distance (calculate_distance, src/main.py:777)
  and the numpy Euclidean descriptor distance (calculate_face_distance,
  src/main.py:748) are transcendental; following the shallow-embedding style
  they are abstracted: scoring and matching functions take the computed
  distance(s) as explicit rational inputs, exactly as the downstream code
  consumes them.
* Python dict field access is modelled by structure fields; every record the
  code builds carries the fields, so the .get defaults never fire.
* Python list.sort is a stable sort; it is modelled by List.insertionSort
  with the corresponding total preorder (stable sorts with a total transitive
  comparison have a unique output, so this is observationally faithful).
* The free-form medical_history JSON document is modelled as a list of
  string key/value pairs; no verified claim inspects its contents.
-/

namespace MedLink

/-- Python int(str) semantics for ordinary decimal strings: optional
surrounding whitespace, optional sign, then at least one ASCII digit.
Returns none when the string does not parse (ValueError).  Implemented on
the character list so it evaluates by kernel reduction. -/
def pyParseInt (s : String) : Option Int :=
  let t := ((s.data.dropWhile Char.isWhitespace).reverse.dropWhile Char.isWhitespace).reverse
  let core :=
    match t with
    | c :: cs => if c = '-' ∨ c = '+' then cs else t
    | [] => []
  let neg : Bool :=
    match t with
    | c :: _ => c = '-'
    | [] => false
  if core ≠ [] ∧ core.all Char.isDigit then
    let n : Nat := core.foldl (fun acc c => acc * 10 + (c.toNat - 48)) 0
    if neg then some (-(n : Int)) else some (n : Int)
  else none

/-- Python str.lower() for the ASCII names used here, on the character
list so it evaluates by kernel reduction. -/
def lowerString (s : String) : String :=
  String.mk (s.data.map Char.toLower)

/-- Helper for substring search: the first list is a prefix of the second. -/
def isPrefixCharList : List Char → List Char → Bool
  | [], _ => true
  | _ :: _, [] => false
  | a :: as2, b :: bs => a = b && isPrefixCharList as2 bs

/-- Helper for substring search: the needle occurs somewhere in the hay. -/
def containsCharList (needle : List Char) : List Char → Bool
  | [] => needle.isEmpty
  | c :: cs => isPrefixCharList needle (c :: cs) || containsCharList needle cs

/-- Python int() applied to a float value: truncation toward zero. -/
def pyTrunc (q : ℚ) : ℤ :=
  if 0 ≤ q then ⌊q⌋ else ⌈q⌉

/-- Round-half-to-even to an integer, as Python's round() does on floats. -/
def roundHalfEven (q : ℚ) : ℤ :=
  let f := ⌊q⌋
  let r := q - (f : ℚ)
  if r < 1/2 then f
  else if 1/2 < r then f + 1
  else if f % 2 = 0 then f else f + 1

/-- Python round(x, 1): nearest multiple of 1/10, ties to even. -/
def round1 (q : ℚ) : ℚ := (roundHalfEven (q * 10) : ℚ) / 10

/-- Python round(x, 4): nearest multiple of 1/10000, ties to even. -/
def round4 (q : ℚ) : ℚ := (roundHalfEven (q * 10000) : ℚ) / 10000

/-- Hospital record, as built from the database rows or the legacy
in-memory table (src/main.py:315, src/main.py:986). -/
structure Hospital where
  id : String
  name : String
  latitude : ℚ
  longitude : ℚ
  icu_beds_available : ℤ
  icu_beds_total : ℤ
  has_trauma : Bool
  blood_stock : List (String × ℤ)
  deriving Repr, DecidableEq

/-- Dict key lookup in the blood_stock mapping. -/
def lookupStock (bs : List (String × ℤ)) (k : String) : Option ℤ :=
  (bs.find? (fun e => e.1 = k)).map (fun e => e.2)

/-- Distance band term of score_hospital (src/main.py:805-816). -/
def distanceScore (d : ℚ) : ℚ :=
  if d ≤ 2 then 200 - d * 30
  else if d ≤ 5 then 150 - d * 20
  else if d ≤ 10 then 100 - d * 8
  else if d ≤ 20 then 50 - d * 2
  else max 0 (30 - d)

/-- Bed availability term (src/main.py:822-827). -/
def bedScore (avail : ℤ) : ℚ :=
  if 0 < avail then ((min (avail * 5) 50 : ℤ) : ℚ) else -100

/-- Capacity-percentage term (src/main.py:829-839); skipped when total = 0. -/
def capacityScore (avail total : ℤ) : ℚ :=
  if 0 < total then
    let cp : ℚ := ((avail : ℚ) / (total : ℚ)) * 100
    if 50 ≤ cp then 30
    else if 30 ≤ cp then 15
    else if 10 ≤ cp then 5
    else -20
  else 0

/-- Doctor-availability proxy term (src/main.py:841-858), doubled when the
severity is critical. -/
def doctorScore (has_trauma : Bool) (total : ℤ) (severity : String) : ℚ :=
  let base : ℚ :=
    (if has_trauma then 20 else 0) +
    (if 15 ≤ total then 15 else if 10 ≤ total then 10 else if 5 ≤ total then 5 else 0)
  if severity = "critical" then base * 2 else base

/-- Blood-stock term (src/main.py:860-872); only when blood is needed, the
patient blood type is non-empty (truthy) and the type is a key of the stock. -/
def bloodScore (bs : List (String × ℤ)) (blood_type : String) (needs_blood : Bool) : ℚ :=
  if needs_blood ∧ blood_type ≠ "" then
    match lookupStock bs blood_type with
    | some amount =>
        if 5 ≤ amount then 40
        else if 2 ≤ amount then 25
        else if 1 ≤ amount then 10
        else -30
    | none => 0
  else 0

/-- Trauma-center bonus by severity (src/main.py:874-878). -/
def traumaScore (has_trauma : Bool) (severity : String) : ℚ :=
  if severity = "critical" ∧ has_trauma then 35
  else if severity = "urgent" ∧ has_trauma then 15
  else 0

/-- Critical-case final adjustments (src/main.py:880-886). -/
def criticalAdjust (severity : String) (d : ℚ) (avail : ℤ) : ℚ :=
  if severity = "critical" then
    (if d ≤ 5 then 20 else 0) + (if 5 ≤ avail then 15 else 0)
  else 0

/-- score_hospital (src/main.py:787-890). The first argument of the source
function is the hospital; the geodesic distance it computes internally via
calculate_distance is passed here as the rational input d. -/
def score_hospital (h : Hospital) (d : ℚ) (blood_type : String)
    (severity : String) (needs_blood : Bool) : ℚ :=
  distanceScore d +
  bedScore h.icu_beds_available +
  capacityScore h.icu_beds_available h.icu_beds_total +
  doctorScore h.has_trauma h.icu_beds_total severity +
  bloodScore h.blood_stock blood_type needs_blood +
  traumaScore h.has_trauma severity +
  criticalAdjust severity d h.icu_beds_available

/-- A concrete hospital used for counterexamples and witnesses. -/
def hExample : Hospital :=
  { id := "1"
    name := "Rashid Hospital"
    latitude := 252654/10000
    longitude := 553089/10000
    icu_beds_available := 12
    icu_beds_total := 20
    has_trauma := true
    blood_stock := [("O+", 8), ("O-", 3), ("A+", 5), ("B+", 4), ("AB+", 2)] }

/-- Helper: the distance band term is non-increasing on [0, 5]. -/
theorem distanceScore_mono_low {d1 d2 : ℚ} (hd : d1 < d2) (h5 : d2 ≤ 5) :
    distanceScore d2 ≤ distanceScore d1 := by
  unfold distanceScore
  split_ifs <;> linarith

/-- Helper: the distance band term is non-increasing on (5, 10]. -/
theorem distanceScore_mono_mid {d1 d2 : ℚ} (h5 : 5 < d1) (hd : d1 < d2) (h10 : d2 ≤ 10) :
    distanceScore d2 ≤ distanceScore d1 := by
  unfold distanceScore
  split_ifs <;> linarith

/-- Helper: the distance band term is non-increasing on (10, ∞). -/
theorem distanceScore_mono_far {d1 d2 : ℚ} (h10 : 10 < d1) (hd : d1 < d2) :
    distanceScore d2 ≤ distanceScore d1 := by
  unfold distanceScore
  split_ifs <;> first
    | linarith
    | (apply max_le <;> linarith)
    | (exact max_le_max le_rfl (by linarith))

/-- Helper: the critical-case proximity adjustment agrees at two distances on
the same side of the 5 km cutoff. -/
theorem criticalAdjust_eq {sev : String} {a : ℤ} {d1 d2 : ℚ}
    (h : (d1 ≤ 5 ∧ d2 ≤ 5) ∨ (5 < d1 ∧ 5 < d2)) :
    criticalAdjust sev d1 a = criticalAdjust sev d2 a := by
  unfold criticalAdjust
  rcases h with ⟨ha, hb⟩ | ⟨ha, hb⟩ <;> split_ifs <;> first | rfl | linarith

/-- C1, counterexample: the hospital score is NOT monotonically non-increasing
in distance across all band boundaries. With identical attributes, severity
"mild", blood type "B+", needs_blood true, a hospital at computed distance
10 km scores 20 points from the distance band while one at 10.5 km scores 29,
so the strictly closer hospital scores strictly less. -/
theorem score_hospital_not_monotone_counterexample :
    (10 : ℚ) < 21/2 ∧
    score_hospital hExample 10 "B+" "mild" true <
      score_hospital hExample (21/2) "B+" "mild" true := by
  constructor
  · norm_num
  · norm_num [score_hospital, distanceScore, bedScore, capacityScore,
      doctorScore, bloodScore, traumaScore, criticalAdjust, lookupStock,
      hExample, List.find?]

/-- C1, amended: for hospitals with identical attributes and fixed severity,
blood type and needs_blood flag, the score is monotonically non-increasing in
the computed distance within each of the regions [0, 5], (5, 10] and
(10, ∞) (so within every band, and across the 2 km and 20 km band
boundaries); it fails across the 5 km and 10 km boundaries. -/
theorem score_hospital_monotone_within_regions
    (h : Hospital) (bt sev : String) (nb : Bool) (d1 d2 : ℚ)
    (hd : d1 < d2)
    (hreg : d2 ≤ 5 ∨ (5 < d1 ∧ d2 ≤ 10) ∨ 10 < d1) :
    score_hospital h d2 bt sev nb ≤ score_hospital h d1 bt sev nb := by
  have hdist : distanceScore d2 ≤ distanceScore d1 := by
    rcases hreg with h5 | ⟨h5, h10⟩ | h10
    · exact distanceScore_mono_low hd h5
    · exact distanceScore_mono_mid h5 hd h10
    · exact distanceScore_mono_far h10 hd
  have hcrit : criticalAdjust sev d1 h.icu_beds_available =
      criticalAdjust sev d2 h.icu_beds_available := by
    rcases hreg with h5 | ⟨h5, h10⟩ | h10
    · exact criticalAdjust_eq (Or.inl ⟨by linarith, h5⟩)
    · exact criticalAdjust_eq (Or.inr ⟨h5, by linarith⟩)
    · exact criticalAdjust_eq (Or.inr ⟨by linarith, by linarith⟩)
  unfold score_hospital
  linarith

/-- C1, witness: the amended monotonicity applied at distances 3 < 4 inside
the region [0, 5], with a critical severity. -/
theorem score_hospital_monotone_within_regions_witness :
    (3 : ℚ) < 4 ∧
    score_hospital hExample 4 "B+" "critical" true ≤
      score_hospital hExample 3 "B+" "critical" true :=
  ⟨by norm_num,
   score_hospital_monotone_within_regions hExample "B+" "critical" true 3 4
     (by norm_num) (Or.inl (by norm_num))⟩

/-- Legacy in-memory patient dict (src/main.py:469).  The nested free-form
medical_history JSON is elided (empty list) — no verified claim reads it. -/
structure LPatient where
  id : String
  name : String
  age : ℤ
  blood_type : String
  photo : Option String
  medical_history : List (String × String)
  deriving Repr, DecidableEq, Inhabited

/-- Legacy patient 1 (src/main.py:470). -/
def pRajesh : LPatient :=
  { id := "1", name := "Rajesh Kumar", age := 32, blood_type := "B+",
    photo := some "patient1.jpg", medical_history := [] }

/-- Legacy patient 2 (src/main.py:496). -/
def pFatima : LPatient :=
  { id := "2", name := "Fatima Ali", age := 45, blood_type := "O+",
    photo := some "patient2.jpg", medical_history := [] }

/-- Legacy patient 3 (src/main.py:522). -/
def pJohn : LPatient :=
  { id := "3", name := "John Smith", age := 28, blood_type := "A+",
    photo := some "patient3.jpg", medical_history := [] }

/-- Legacy patient 4 (src/main.py:548). -/
def pDemo : LPatient :=
  { id := "4", name := "Demo Patient", age := 30, blood_type := "O+",
    photo := some "demo.jpg", medical_history := [] }

/-- Legacy patient 5, the reserved demo identity (src/main.py:576). -/
def pAhmad : LPatient :=
  { id := "5", name := "Ahmad Hassan", age := 42, blood_type := "O+",
    photo := some "ahmad_hassan.jpg", medical_history := [] }

/-- Legacy patient 6 (src/main.py:644). -/
def pPriya : LPatient :=
  { id := "6", name := "Priya Sharma", age := 38, blood_type := "B+",
    photo := some "priya_sharma.jpg", medical_history := [] }

/-- PATIENTS_LEGACY (src/main.py:469), the module-level fallback table as
seeded at startup. -/
def PATIENTS_LEGACY : List LPatient :=
  [pRajesh, pFatima, pJohn, pDemo, pAhmad, pPriya]

/-- HOSPITALS_LEGACY (src/main.py:315), the module-level fallback table. -/
def HOSPITALS_LEGACY : List Hospital :=
  [ { id := "1", name := "Rashid Hospital", latitude := 252654/10000,
      longitude := 553089/10000, icu_beds_available := 12, icu_beds_total := 20,
      has_trauma := true,
      blood_stock := [("O+", 8), ("O-", 3), ("A+", 5), ("B+", 4), ("AB+", 2)] },
    { id := "2", name := "Dubai Hospital", latitude := 252631/10000,
      longitude := 553376/10000, icu_beds_available := 8, icu_beds_total := 15,
      has_trauma := true,
      blood_stock := [("O+", 6), ("O-", 2), ("A+", 7), ("B+", 3), ("AB+", 1)] },
    { id := "3", name := "American Hospital Dubai", latitude := 251571/10000,
      longitude := 552560/10000, icu_beds_available := 10, icu_beds_total := 12,
      has_trauma := false,
      blood_stock := [("O+", 10), ("O-", 5), ("A+", 8), ("B+", 6), ("AB+", 3)] },
    { id := "4", name := "Saudi German Hospital Dubai", latitude := 251121/10000,
      longitude := 551389/10000, icu_beds_available := 5, icu_beds_total := 18,
      has_trauma := true,
      blood_stock := [("O+", 4), ("O-", 1), ("A+", 3), ("B+", 2), ("AB+", 1)] },
    { id := "5", name := "Mediclinic City Hospital", latitude := 251865/10000,
      longitude := 552843/10000, icu_beds_available := 7, icu_beds_total := 10,
      has_trauma := false,
      blood_stock := [("O+", 9), ("O-", 4), ("A+", 6), ("B+", 5), ("AB+", 2)] },
    { id := "6", name := "Al Jalila Childrens Specialty Hospital",
      latitude := 252048/10000, longitude := 552708/10000,
      icu_beds_available := 15, icu_beds_total := 25, has_trauma := true,
      blood_stock := [("O+", 12), ("O-", 6), ("A+", 10), ("B+", 8), ("AB+", 4)] },
    { id := "7", name := "Mediclinic Welcare Hospital", latitude := 252083/10000,
      longitude := 552708/10000, icu_beds_available := 9, icu_beds_total := 14,
      has_trauma := false,
      blood_stock := [("O+", 11), ("O-", 5), ("A+", 9), ("B+", 7), ("AB+", 3)] },
    { id := "8", name := "Mediclinic Parkview Hospital", latitude := 252136/10000,
      longitude := 552633/10000, icu_beds_available := 6, icu_beds_total := 12,
      has_trauma := false,
      blood_stock := [("O+", 8), ("O-", 3), ("A+", 7), ("B+", 5), ("AB+", 2)] },
    { id := "9", name := "NMC Royal Hospital", latitude := 251981/10000,
      longitude := 552856/10000, icu_beds_available := 11, icu_beds_total := 16,
      has_trauma := true,
      blood_stock := [("O+", 13), ("O-", 7), ("A+", 11), ("B+", 9), ("AB+", 5)] },
    { id := "10", name := "Emirates Hospital", latitude := 252264/10000,
      longitude := 552781/10000, icu_beds_available := 8, icu_beds_total := 13,
      has_trauma := false,
      blood_stock := [("O+", 10), ("O-", 4), ("A+", 8), ("B+", 6), ("AB+", 3)] },
    { id := "11", name := "Dubai London Clinic", latitude := 252469/10000,
      longitude := 552936/10000, icu_beds_available := 4, icu_beds_total := 8,
      has_trauma := false,
      blood_stock := [("O+", 7), ("O-", 2), ("A+", 6), ("B+", 4), ("AB+", 2)] },
    { id := "12", name := "Zulekha Hospital", latitude := 252417/10000,
      longitude := 553044/10000, icu_beds_available := 5, icu_beds_total := 10,
      has_trauma := false,
      blood_stock := [("O+", 9), ("O-", 3), ("A+", 7), ("B+", 5), ("AB+", 2)] },
    { id := "13", name := "Mediclinic Meadows", latitude := 251792/10000,
      longitude := 552556/10000, icu_beds_available := 7, icu_beds_total := 11,
      has_trauma := false,
      blood_stock := [("O+", 8), ("O-", 3), ("A+", 6), ("B+", 5), ("AB+", 2)] },
    { id := "14", name := "Mediclinic Arabian Ranches", latitude := 250556/10000,
      longitude := 552153/10000, icu_beds_available := 3, icu_beds_total := 6,
      has_trauma := false,
      blood_stock := [("O+", 5), ("O-", 2), ("A+", 4), ("B+", 3), ("AB+", 1)] },
    { id := "15", name := "Aster Hospital Mankhool", latitude := 252514/10000,
      longitude := 552972/10000, icu_beds_available := 6, icu_beds_total := 9,
      has_trauma := false,
      blood_stock := [("O+", 7), ("O-", 3), ("A+", 6), ("B+", 4), ("AB+", 2)] } ]

/-- Database patient row (src/database.py:38). -/
structure DBPatient where
  id : ℤ
  name : String
  age : ℤ
  blood_type : String
  photo : Option String
  medical_history : List (String × String)
  face_descriptor : Option (List ℚ)
  deriving Repr, DecidableEq

/-- The patient dict built from a database row (src/main.py:964-972):
the integer id is stringified. -/
def patientDictOfDB (p : DBPatient) : LPatient :=
  { id := toString p.id, name := p.name, age := p.age,
    blood_type := p.blood_type, photo := p.photo,
    medical_history := p.medical_history }

/-- AllocationRequest (src/main.py:768). patient_id is Optional[str]. -/
structure AllocationRequest where
  patient_id : Option String
  latitude : ℚ
  longitude : ℚ
  severity : String
  needs_blood : Bool
  deriving Repr, DecidableEq

/-- An entry of the scored_hospitals list (src/main.py:1019-1023). -/
structure ScoredHospital where
  hospital : Hospital
  score : ℚ
  distance_km : ℚ
  deriving Repr, DecidableEq

/-- The scored_hospitals list (src/main.py:1009-1023): every fetched hospital
with its score and its distance rounded to one decimal.  The computed
haversine distances enter through the dist argument. -/
def scoredList (dist : Hospital → ℚ) (bt sev : String) (nb : Bool)
    (hs : List Hospital) : List ScoredHospital :=
  hs.map (fun h =>
    { hospital := h,
      score := score_hospital h (dist h) bt sev nb,
      distance_km := round1 (dist h) })

/-- The stable descending sort by score (src/main.py:1026).  Python's list
sort is stable and reverse=True keeps equal elements in input order, which is
exactly insertionSort with this total preorder. -/
def sortByScoreDesc (l : List ScoredHospital) : List ScoredHospital :=
  List.insertionSort (fun a b => b.score ≤ a.score) l

/-- Modelled from the spec: the selection rule in the spec's words — the
strictly highest total score wins and ties go to the hospital first in input
order.  Used to compare the code's sort-then-head against the spec. -/
def firstMaxByScore : List ScoredHospital → Option ScoredHospital
  | [] => none
  | x :: xs =>
    match firstMaxByScore xs with
    | none => some x
    | some m => if x.score < m.score then some m else some x

/-- Outcome of the donor-alert webhook POST (src/main.py:1054-1092).
ok200Json carries the donors_alerted value extracted from the parsed body
with its dict defaults already applied. -/
inductive DonorOutcome
  | ok200Json (donors_alerted : ℤ)
  | ok200NonJson
  | non200
  | connError
  deriving Repr, DecidableEq

/-- Outcome of the emergency-notification webhook POST
(src/main.py:1111-1133). -/
inductive EmergencyOutcome
  | ok200Json (hospitals_notified : List String)
  | ok200NonJson
  | non200
  | connError
  deriving Repr, DecidableEq

/-- The allocation response body (src/main.py:1153-1164).  donor_details is
elided: it is presentation data no claim touches. -/
structure AllocationResult where
  patient : LPatient
  allocated_hospital : Hospital
  distance_km : ℚ
  allocation_score : ℚ
  eta_minutes : ℤ
  blood_available : Bool
  donors_alerted : ℤ
  emergency_notified : Bool
  hospitals_notified : List String
  deriving Repr, DecidableEq

/-- Either an HTTPException that escapes the handler, or a 200 response. -/
inductive AllocOutcome
  | httpError (status : ℕ) (detail : String)
  | ok (r : AllocationResult)
  deriving Repr, DecidableEq

/-- Patient resolution in allocate_emergency (src/main.py:956-978).  When the
id does not parse, the raised HTTPException(400) is caught by the enclosing
except Exception (src/main.py:976) and the code falls back to the legacy
lookup, defaulting to PATIENTS_LEGACY[0].  dbPatients = none models an
unavailable database or a failing query. -/
def allocPatient (pid : String) (dbPatients : Option (List DBPatient)) : LPatient :=
  match pyParseInt pid with
  | none => (PATIENTS_LEGACY.find? (fun p => p.id = pid)).getD PATIENTS_LEGACY.headI
  | some n =>
    match dbPatients with
    | some ps =>
      match ps.find? (fun p => p.id = n) with
      | some p => patientDictOfDB p
      | none => (PATIENTS_LEGACY.find? (fun p => p.id = pid)).getD PATIENTS_LEGACY.headI
    | none => (PATIENTS_LEGACY.find? (fun p => p.id = pid)).getD PATIENTS_LEGACY.headI

/-- Hospital list resolution (src/main.py:980-1006): fall back to the legacy
table when the database yields nothing. -/
def allocHospitals (dbHospitals : Option (List Hospital)) : List Hospital :=
  let hs0 := dbHospitals.getD []
  if hs0.isEmpty then HOSPITALS_LEGACY else hs0

/-- The response assembled for the best-scored hospital
(src/main.py:1029-1164).  workflowCfg is the donors_notified value of the
locally held workflow config (none when absent); every failure path of the
donor webhook falls back to it and then to the hardcoded 3. -/
def allocResult (req : AllocationRequest) (patient : LPatient)
    (best : ScoredHospital) (workflowCfg : Option ℤ)
    (donor : DonorOutcome) (emerg : EmergencyOutcome) : AllocationResult :=
  let needsB := req.needs_blood ∧ patient.blood_type ≠ ""
  let stock : ℤ :=
    if needsB then (lookupStock best.hospital.blood_stock patient.blood_type).getD 0
    else 0
  let blood_available := needsB ∧ 2 ≤ stock
  let donors_alerted : ℤ :=
    if needsB ∧ stock < 2 then
      match donor with
      | .ok200Json n => n
      | _ => workflowCfg.getD 3
    else 0
  let notif :=
    if req.severity = "critical" then
      match emerg with
      | .ok200Json hs => (true, hs)
      | _ => (true, ["Nearby Hospitals"])
    else (false, ([] : List String))
  { patient := patient
    allocated_hospital := best.hospital
    distance_km := best.distance_km
    allocation_score := round1 best.score
    eta_minutes := pyTrunc (best.distance_km * 2 + 3)
    blood_available := blood_available
    donors_alerted := donors_alerted
    emergency_notified := notif.1
    hospitals_notified := notif.2 }

/-- allocate_emergency (src/main.py:950-1164).  The empty-sorted-list branch
models the IndexError that scored_hospitals[0] would raise; it is unreachable
because the hospital list always falls back to the non-empty legacy table. -/
def allocate_emergency (req : AllocationRequest)
    (dbPatients : Option (List DBPatient)) (dbHospitals : Option (List Hospital))
    (dist : Hospital → ℚ) (workflowCfg : Option ℤ)
    (donor : DonorOutcome) (emerg : EmergencyOutcome) : AllocOutcome :=
  match req.patient_id with
  | none => .httpError 400 "patient_id is required"
  | some pid =>
    if pid = "" then .httpError 400 "patient_id is required"
    else
      match sortByScoreDesc (scoredList dist (allocPatient pid dbPatients).blood_type
          req.severity req.needs_blood (allocHospitals dbHospitals)) with
      | [] => .httpError 500 "IndexError: scored_hospitals is empty"
      | best :: _ =>
        .ok (allocResult req (allocPatient pid dbPatients) best workflowCfg donor emerg)

/-- Helper: the head of the stable descending sort is the first maximum of
the input list. -/
theorem sortByScoreDesc_head_eq_firstMax (l : List ScoredHospital) :
    (sortByScoreDesc l).head? = firstMaxByScore l := by
  unfold sortByScoreDesc
  induction l with
  | nil => rfl
  | cons x xs ih =>
    rw [List.insertionSort]
    cases hs : List.insertionSort (fun a b => b.score ≤ a.score) xs with
    | nil =>
      rw [hs] at ih
      simp only [List.head?] at ih
      simp [List.orderedInsert, firstMaxByScore, ← ih]
    | cons y ys =>
      rw [hs] at ih
      simp only [List.head?] at ih
      by_cases hxy : y.score ≤ x.score
      · simp [List.orderedInsert, hxy, firstMaxByScore, ← ih, not_lt.mpr hxy]
      · simp [List.orderedInsert, hxy, firstMaxByScore, ← ih, lt_of_not_le hxy]

/-- Helper: the resolved hospital list is never empty (the legacy table has
15 entries). -/
theorem allocHospitals_ne_nil (dbHospitals : Option (List Hospital)) :
    allocHospitals dbHospitals ≠ [] := by
  show (if (dbHospitals.getD []).isEmpty = true then HOSPITALS_LEGACY
        else dbHospitals.getD []) ≠ []
  split_ifs with h
  · decide
  · exact fun hnil => h (List.isEmpty_iff.mpr hnil)

/-- Helper: with a non-empty patient_id, allocate_emergency returns the
response built from the head of the stable descending sort. -/
theorem allocate_ok_shape (req : AllocationRequest) (pid : String)
    (dbPatients : Option (List DBPatient)) (dbHospitals : Option (List Hospital))
    (dist : Hospital → ℚ) (workflowCfg : Option ℤ)
    (donor : DonorOutcome) (emerg : EmergencyOutcome)
    (hpid : req.patient_id = some pid) (hne : pid ≠ "") :
    ∃ best rest,
      sortByScoreDesc (scoredList dist (allocPatient pid dbPatients).blood_type
        req.severity req.needs_blood (allocHospitals dbHospitals)) = best :: rest ∧
      allocate_emergency req dbPatients dbHospitals dist workflowCfg donor emerg =
        .ok (allocResult req (allocPatient pid dbPatients) best workflowCfg donor emerg) := by
  have hns : allocHospitals dbHospitals ≠ [] := allocHospitals_ne_nil dbHospitals
  have hlen : (sortByScoreDesc (scoredList dist (allocPatient pid dbPatients).blood_type
      req.severity req.needs_blood (allocHospitals dbHospitals))).length =
      (allocHospitals dbHospitals).length := by
    unfold sortByScoreDesc scoredList
    rw [List.length_insertionSort, List.length_map]
  have hsne : sortByScoreDesc (scoredList dist (allocPatient pid dbPatients).blood_type
      req.severity req.needs_blood (allocHospitals dbHospitals)) ≠ [] := by
    intro hnil
    rw [hnil] at hlen
    exact hns (List.length_eq_zero.mp hlen.symm)
  obtain ⟨best, rest, hL⟩ := List.exists_cons_of_ne_nil hsne
  refine ⟨best, rest, hL, ?_⟩
  unfold allocate_emergency
  rw [hpid]
  simp only [hne, if_false, ite_false]
  rw [hL]

/-- C5: allocation picks the hospital with the strictly highest total score,
ties resolved in favour of the hospital first in input order: the head of the
stable descending sort is exactly the first maximum of the scored list. -/
theorem allocate_selects_first_max (req : AllocationRequest) (pid : String)
    (dbPatients : Option (List DBPatient)) (dbHospitals : Option (List Hospital))
    (dist : Hospital → ℚ) (workflowCfg : Option ℤ)
    (donor : DonorOutcome) (emerg : EmergencyOutcome)
    (hpid : req.patient_id = some pid) (hne : pid ≠ "") :
    ∃ r b,
      allocate_emergency req dbPatients dbHospitals dist workflowCfg donor emerg = .ok r ∧
      firstMaxByScore (scoredList dist (allocPatient pid dbPatients).blood_type
        req.severity req.needs_blood (allocHospitals dbHospitals)) = some b ∧
      r.allocated_hospital = b.hospital ∧
      r.allocation_score = round1 b.score ∧
      r.distance_km = b.distance_km := by
  obtain ⟨best, rest, hL, hok⟩ :=
    allocate_ok_shape req pid dbPatients dbHospitals dist workflowCfg donor emerg hpid hne
  refine ⟨_, best, hok, ?_, rfl, rfl, rfl⟩
  rw [← sortByScoreDesc_head_eq_firstMax, hL]
  rfl

/-- C5, witness: a concrete allocation request with patient id "1". -/
theorem allocate_selects_first_max_witness :
    ({ patient_id := some "1", latitude := 25, longitude := 55,
       severity := "critical", needs_blood := true } : AllocationRequest).patient_id
        = some "1" ∧
    ∃ r b,
      allocate_emergency
        { patient_id := some "1", latitude := 25, longitude := 55,
          severity := "critical", needs_blood := true }
        (some []) (some [hExample]) (fun _ => 1) none .connError .connError = .ok r ∧
      firstMaxByScore (scoredList (fun _ => 1)
        (allocPatient "1" (some [])).blood_type "critical" true
        (allocHospitals (some [hExample]))) = some b ∧
      r.allocated_hospital = b.hospital ∧
      r.allocation_score = round1 b.score ∧
      r.distance_km = b.distance_km :=
  ⟨rfl,
   allocate_selects_first_max
     { patient_id := some "1", latitude := 25, longitude := 55,
       severity := "critical", needs_blood := true }
     "1" (some []) (some [hExample]) (fun _ => 1) none .connError .connError
     rfl (by decide)⟩

/-- C6: the returned eta_minutes equals int(distance_km * 2 + 3) computed
from the distance_km reported in the same response. -/
theorem allocate_eta_formula (req : AllocationRequest)
    (dbPatients : Option (List DBPatient)) (dbHospitals : Option (List Hospital))
    (dist : Hospital → ℚ) (workflowCfg : Option ℤ)
    (donor : DonorOutcome) (emerg : EmergencyOutcome) (r : AllocationResult)
    (h : allocate_emergency req dbPatients dbHospitals dist workflowCfg donor emerg = .ok r) :
    r.eta_minutes = pyTrunc (r.distance_km * 2 + 3) := by
  unfold allocate_emergency at h
  split at h
  · exact absurd h (by simp)
  · split at h
    · exact absurd h (by simp)
    · split at h
      · exact absurd h (by simp)
      · have hr := (AllocOutcome.ok.injEq _ _).mp h
        subst hr
        rfl

/-- C6, witness: a concrete allocation whose reported distance is 1 km and
whose eta is int(1 * 2 + 3) = 5 minutes. -/
theorem allocate_eta_formula_witness :
    ∃ r, allocate_emergency
        { patient_id := some "1", latitude := 25, longitude := 55,
          severity := "mild", needs_blood := false }
        (some []) (some [hExample]) (fun _ => 1) none .connError .connError = .ok r ∧
      r.eta_minutes = pyTrunc (r.distance_km * 2 + 3) := by
  obtain ⟨best, rest, hL, hok⟩ :=
    allocate_ok_shape
      { patient_id := some "1", latitude := 25, longitude := 55,
        severity := "mild", needs_blood := false }
      "1" (some []) (some [hExample]) (fun _ => 1) none .connError .connError
      rfl (by decide)
  exact ⟨_, hok, allocate_eta_formula _ _ _ _ _ _ _ _ hok⟩

/-- C8: for a critical-severity request the allocation response is still
returned and carries emergency_notified = true for every outcome of the
emergency-notification webhook (parsed 200, non-JSON 200, non-2xx status, or
connection failure/timeout). -/
theorem allocate_critical_always_notified (req : AllocationRequest) (pid : String)
    (dbPatients : Option (List DBPatient)) (dbHospitals : Option (List Hospital))
    (dist : Hospital → ℚ) (workflowCfg : Option ℤ)
    (donor : DonorOutcome) (emerg : EmergencyOutcome)
    (hpid : req.patient_id = some pid) (hne : pid ≠ "")
    (hsev : req.severity = "critical") :
    ∃ r, allocate_emergency req dbPatients dbHospitals dist workflowCfg donor emerg = .ok r ∧
      r.emergency_notified = true := by
  obtain ⟨best, rest, hL, hok⟩ :=
    allocate_ok_shape req pid dbPatients dbHospitals dist workflowCfg donor emerg hpid hne
  refine ⟨_, hok, ?_⟩
  unfold allocResult
  simp only [hsev, if_pos, ite_true]
  cases emerg <;> rfl

/-- C8, witness: a critical request under a connection-failure outcome of the
notification webhook still reports emergency_notified = true. -/
theorem allocate_critical_always_notified_witness :
    ∃ r, allocate_emergency
        { patient_id := some "2", latitude := 25, longitude := 55,
          severity := "critical", needs_blood := true }
        none (some [hExample]) (fun _ => 3) none .connError .connError = .ok r ∧
      r.emergency_notified = true :=
  allocate_critical_always_notified
    { patient_id := some "2", latitude := 25, longitude := 55,
      severity := "critical", needs_blood := true }
    "2" none (some [hExample]) (fun _ => 3) none .connError .connError
    rfl (by decide) rfl

/-- C2: a non-empty patient_id that does not parse as an integer does NOT
reject the request.  The raise HTTPException(400, Invalid patient_id format)
at src/main.py:961 is caught by the enclosing except Exception at
src/main.py:976, so the handler falls back to the default legacy patient
(PATIENTS_LEGACY[0], Rajesh Kumar), scores the hospitals and returns a full
200 allocation response. -/
theorem allocate_unparseable_id_still_processes :
    pyParseInt "abc" = none ∧
    allocate_emergency
      { patient_id := some "abc", latitude := 252/10, longitude := 5527/100,
        severity := "mild", needs_blood := false }
      (some []) (some [hExample]) (fun _ => 1) none .connError .connError =
      .ok { patient := pRajesh, allocated_hospital := hExample,
            distance_km := 1, allocation_score := 285, eta_minutes := 5,
            blood_available := false, donors_alerted := 0,
            emergency_notified := false, hospitals_notified := [] } := by
  have hparse : pyParseInt "abc" = none := by decide
  refine ⟨hparse, ?_⟩
  unfold allocate_emergency allocPatient
  norm_num +decide [hparse, PATIENTS_LEGACY, pRajesh, pFatima, pJohn, pDemo,
    pAhmad, pPriya, List.find?, List.headI, allocHospitals, scoredList,
    sortByScoreDesc, List.insertionSort, List.orderedInsert, score_hospital,
    distanceScore, bedScore, capacityScore, doctorScore, bloodScore,
    traumaScore, criticalAdjust, lookupStock, hExample, allocResult, round1,
    roundHalfEven, pyTrunc, Int.fract_ofNat, Int.floor_ofNat, Int.fract_one,
    Int.floor_one]

/-- Python substring membership (the in operator). -/
def strContains (s t : String) : Bool :=
  containsCharList t.data s.data

/-- The reserved demo identities of register_patient (src/main.py:2270-2272). -/
structure DemoPatientInfo where
  id : String
  name : String
  keywords : List String
  deriving Repr, DecidableEq

/-- demo_patients of the registration fallback path (src/main.py:2270). -/
def registerDemoPatients : List DemoPatientInfo :=
  [{ id := "5", name := "Ahmad Hassan", keywords := ["ahmad", "hassan"] }]

/-- The demo-identity scan of the registration fallback path
(src/main.py:2277-2289): for the first demo identity whose name matches the
submitted name (exact, case-insensitive) or whose keyword occurs in the
lowercased name, look up the stored record by id or name and return its id. -/
def findDemoUpdateId (name : String) (ps : List LPatient) : Option String :=
  (registerDemoPatients.filterMap (fun demo =>
    if lowerString demo.name = lowerString name ∨
        demo.keywords.any (fun k => strContains (lowerString name) k) then
      (ps.find? (fun p => p.id = demo.id ∨ p.name = demo.name)).map (fun p => p.id)
    else none)).head?

/-- The age value of the registration payload (src/main.py:2163-2170): the
JSON field can be absent, an integer, a string, or null. -/
inductive AgeValue
  | missing
  | intV (n : ℤ)
  | strV (s : String)
  | nullV
  deriving Repr, DecidableEq

/-- Age parsing with validation (src/main.py:2165-2170): int() conversion
failures (ValueError/TypeError) and out-of-range values both default to 30. -/
def parseAge : AgeValue → ℤ
  | .missing => 30
  | .intV n => if n < 0 ∨ 150 < n then 30 else n
  | .strV s =>
    match pyParseInt s with
    | some n => if n < 0 ∨ 150 < n then 30 else n
    | none => 30
  | .nullV => 30

/-- The registration request payload (src/main.py:2159-2176).
face_descriptor = none models an absent or null field. -/
structure RegisterData where
  name : Option String
  age : AgeValue
  blood_type : Option String
  medical_history : Option (List (String × String))
  photo : Option String
  face_descriptor : Option (List ℚ)

/-- The mutable stores register_patient touches: the database table and the
legacy in-memory PATIENTS_LEGACY / PATIENT_DESCRIPTORS_LEGACY. -/
structure RegState where
  db : List DBPatient
  patients : List LPatient
  descriptors : List (String × List ℚ)

/-- Registration response (src/main.py:2257, 2309, 2334). -/
structure RegisterResult where
  success : Bool
  patient : LPatient
  updated : Bool
  deriving Repr, DecidableEq

/-- Python truthiness of an optional string. -/
def optStrTruthy : Option String → Bool
  | some s => s ≠ ""
  | none => false

/-- Dict assignment on the descriptor store: replace the first binding or
append a new one. -/
def setDescriptor : List (String × List ℚ) → String → List ℚ → List (String × List ℚ)
  | [], k, v => [(k, v)]
  | e :: es, k, v => if e.1 = k then (k, v) :: es else e :: setDescriptor es k v

/-- Dict lookup on the descriptor store. -/
def lookupDesc (ds : List (String × List ℚ)) (k : String) : Option (List ℚ) :=
  (ds.find? (fun e => e.1 = k)).map (fun e => e.2)

/-- In-place mutation of the first stored record with the given id. -/
def replaceFirstById : List LPatient → String → LPatient → List LPatient
  | [], _, _ => []
  | q :: qs, pid, p2 => if q.id = pid then p2 :: qs else q :: replaceFirstById qs pid p2

/-- Next database id (src/main.py:2185-2188): max id + 1, or 1 when the
table is empty.  Also the autoincrement id the insert receives. -/
def dbNextId (db : List DBPatient) : ℤ :=
  match db with
  | [] => 1
  | _ => (db.map (fun p => p.id)).foldl max 0 + 1

/-- Next legacy id (src/main.py:2313-2315): max of the integer-parsed ids
plus one, or length + 1 when some id fails to parse. -/
def nextLegacyIdInt (ps : List LPatient) : ℤ :=
  if ps.all (fun p => (pyParseInt p.id).isSome) then
    (ps.map (fun p => (pyParseInt p.id).getD 0)).foldl max 0 + 1
  else ps.length + 1

/-- The create-new-patient tail of the in-memory fallback
(src/main.py:2311-2334). -/
def registerCreateLegacy (gen : String → List ℚ) (name : String) (age : ℤ)
    (blood_type : String) (medical_history : List (String × String))
    (photo : Option String) (face_descriptor : List ℚ)
    (st : RegState) : RegisterResult × RegState :=
  let next_id := toString (nextLegacyIdInt st.patients)
  let newP : LPatient :=
    { id := next_id, name := name, age := age, blood_type := blood_type,
      photo := photo, medical_history := medical_history }
  let stored := if face_descriptor ≠ [] then face_descriptor else gen next_id
  ({ success := true, patient := newP, updated := false },
   { st with patients := st.patients ++ [newP],
             descriptors := setDescriptor st.descriptors next_id stored })

/-- Face-descriptor resolution at registration (src/main.py:2176-2205): a
valid 128-length submitted descriptor is kept; anything else is replaced by
the deterministically seeded generated one. -/
def resolveDescriptor (gen : String → List ℚ) (nextSeed : ℤ) :
    Option (List ℚ) → List ℚ
  | some l => if l.length = 128 then l else gen (toString nextSeed)
  | none => gen (toString nextSeed)

/-- register_patient (src/main.py:2159-2337).  dbAvail models
DATABASE_AVAILABLE with a live session; dbWriteOk models the database
add/commit/refresh round trip succeeding; gen abstracts the seeded numpy
pseudorandom descriptor generator (generate_demo_descriptor,
src/main.py:732), whose values no claim inspects.  The demo-identity
update-in-place logic exists only on the in-memory fallback path
(src/main.py:2267-2309); the database path creates a new row whatever the
name (src/main.py:2226-2257). -/
def register_patient (dbAvail dbWriteOk : Bool) (gen : String → List ℚ)
    (data : RegisterData) (st : RegState) : RegisterResult × RegState :=
  let name := data.name.getD "Unknown Patient"
  let age := parseAge data.age
  let blood_type := (data.blood_type.getD "O+")
  let medical_history := data.medical_history.getD []
  let photo := data.photo
  let nextSeed : ℤ := if dbAvail then dbNextId st.db else nextLegacyIdInt st.patients
  let face_descriptor : List ℚ := resolveDescriptor gen nextSeed data.face_descriptor
  if dbAvail = true ∧ face_descriptor.length = 128 ∧ dbWriteOk = true then
    let newId := dbNextId st.db
    let p : DBPatient :=
      { id := newId, name := name, age := age, blood_type := blood_type,
        photo := photo, medical_history := medical_history,
        face_descriptor := some face_descriptor }
    ({ success := true, patient := patientDictOfDB p, updated := false },
     { st with db := st.db ++ [p] })
  else
    match findDemoUpdateId name st.patients with
    | some pid =>
      match st.patients.find? (fun q => q.id = pid) with
      | some p =>
        let p2 : LPatient :=
          { p with
            age := if age ≠ 0 then age else p.age,
            blood_type := if blood_type ≠ "" then blood_type else p.blood_type,
            photo := if optStrTruthy photo then photo else p.photo,
            medical_history :=
              if medical_history ≠ [] then medical_history else p.medical_history }
        ({ success := true, patient := p2, updated := true },
         { st with
             patients := replaceFirstById st.patients pid p2,
             descriptors :=
               if face_descriptor ≠ [] then setDescriptor st.descriptors pid face_descriptor
               else st.descriptors })
      | none =>
        registerCreateLegacy gen name age blood_type medical_history photo face_descriptor st
    | none =>
      registerCreateLegacy gen name age blood_type medical_history photo face_descriptor st

/-- Helper: in-place replacement preserves the store's length. -/
theorem replaceFirstById_length (ps : List LPatient) (pid : String) (p2 : LPatient) :
    (replaceFirstById ps pid p2).length = ps.length := by
  induction ps with
  | nil => rfl
  | cons q qs ih =>
    unfold replaceFirstById
    split_ifs <;> simp [ih]

/-- Helper: looking up a key right after assigning it yields the assigned
value. -/
theorem lookupDesc_setDescriptor (ds : List (String × List ℚ)) (k : String) (v : List ℚ) :
    lookupDesc (setDescriptor ds k v) k = some v := by
  induction ds with
  | nil => simp [setDescriptor, lookupDesc, List.find?]
  | cons e es ih =>
    unfold setDescriptor
    split_ifs with he
    · simp [lookupDesc, List.find?]
    · simpa [lookupDesc, List.find?, he] using ih

/-- The registration payload of the C3 counterexample: the exact reserved
demo name with a valid 128-length descriptor. -/
def regDataAhmad : RegisterData :=
  { name := some "Ahmad Hassan", age := .intV 40, blood_type := some "O+",
    medical_history := none, photo := none,
    face_descriptor := some (List.replicate 128 0) }

/-- The store state of the C3 counterexample: empty database table, legacy
tables as seeded. -/
def regStateSeed : RegState :=
  { db := [], patients := PATIENTS_LEGACY, descriptors := [] }

/-- C3, counterexample: a registration whose name is exactly the reserved
demo identity, served while the database is available, creates a brand-new
record with a fresh id (autoincrement id 1 on an empty table) instead of
updating the stored demo patient (id 5) in place: the demo special case
exists only on the in-memory fallback path. -/
theorem register_demo_name_db_creates_new_record :
    findDemoUpdateId "Ahmad Hassan" PATIENTS_LEGACY = some "5" ∧
    (register_patient true true (fun _ => List.replicate 128 0)
      regDataAhmad regStateSeed).1.patient.id = "1" ∧
    (register_patient true true (fun _ => List.replicate 128 0)
      regDataAhmad regStateSeed).1.updated = false ∧
    (register_patient true true (fun _ => List.replicate 128 0)
      regDataAhmad regStateSeed).2.db.length = 1 := by
  refine ⟨by decide, ?_, ?_, ?_⟩ <;>
    (simp [register_patient, regDataAhmad, regStateSeed, resolveDescriptor,
      patientDictOfDB, dbNextId]
     try decide)

/-- C3, amended: the demo-identity update-in-place semantics holds on the
in-memory fallback path (database unavailable or the database write
failing): when the submitted name matches the reserved demo identity and the
matching record is stored, register updates that record in place — same id,
no new record, submitted age recorded when non-zero, submitted valid
descriptor stored — and reports updated = true; on the successful database
path a fresh record is created regardless of the name. -/
theorem register_demo_name_fallback_updates_in_place
    (dbAvail dbWriteOk : Bool) (gen : String → List ℚ) (data : RegisterData)
    (st : RegState) (pid : String) (p : LPatient)
    (hfb : dbAvail = false ∨ dbWriteOk = false)
    (hfind : findDemoUpdateId (data.name.getD "Unknown Patient") st.patients = some pid)
    (hp : st.patients.find? (fun q => q.id = pid) = some p) :
    (register_patient dbAvail dbWriteOk gen data st).1.success = true ∧
    (register_patient dbAvail dbWriteOk gen data st).1.updated = true ∧
    (register_patient dbAvail dbWriteOk gen data st).1.patient.id = p.id ∧
    (register_patient dbAvail dbWriteOk gen data st).2.patients.length =
      st.patients.length ∧
    (parseAge data.age ≠ 0 →
      (register_patient dbAvail dbWriteOk gen data st).1.patient.age = parseAge data.age) ∧
    (∀ l, data.face_descriptor = some l → l.length = 128 → l ≠ [] →
      lookupDesc (register_patient dbAvail dbWriteOk gen data st).2.descriptors pid
        = some l) := by
  have hcond : ∀ X : List ℚ, ¬(dbAvail = true ∧ X.length = 128 ∧ dbWriteOk = true) := by
    rcases hfb with hfb | hfb <;> subst hfb <;> simp
  simp only [register_patient, hfind, hp]
  rw [if_neg (hcond _)]
  refine ⟨rfl, rfl, rfl, replaceFirstById_length _ _ _, ?_, ?_⟩
  · intro h30
    simp [h30]
  · intro l hl hlen hne
    simp only [hl, resolveDescriptor, hlen, if_pos, ite_true, ne_eq, hne,
      not_false_iff]
    simp [hne, lookupDesc_setDescriptor]

/-- C3, witness: the amended update-in-place applied with the database
unavailable, the seeded legacy store and the exact demo name. -/
theorem register_demo_name_fallback_updates_in_place_witness :
    (register_patient false true (fun _ => List.replicate 128 0)
      regDataAhmad regStateSeed).1.success = true ∧
    (register_patient false true (fun _ => List.replicate 128 0)
      regDataAhmad regStateSeed).1.updated = true ∧
    (register_patient false true (fun _ => List.replicate 128 0)
      regDataAhmad regStateSeed).1.patient.id = pAhmad.id ∧
    (register_patient false true (fun _ => List.replicate 128 0)
      regDataAhmad regStateSeed).2.patients.length = regStateSeed.patients.length ∧
    (parseAge regDataAhmad.age ≠ 0 →
      (register_patient false true (fun _ => List.replicate 128 0)
        regDataAhmad regStateSeed).1.patient.age = parseAge regDataAhmad.age) ∧
    (∀ l, regDataAhmad.face_descriptor = some l → l.length = 128 → l ≠ [] →
      lookupDesc (register_patient false true (fun _ => List.replicate 128 0)
        regDataAhmad regStateSeed).2.descriptors "5" = some l) :=
  register_demo_name_fallback_updates_in_place false true
    (fun _ => List.replicate 128 0) regDataAhmad regStateSeed "5" pAhmad
    (Or.inl rfl) (by decide) (by decide)

/-- The malformed-age conditions of C10: the age field is absent, null, a
non-numeric string, or a numeric value outside 0..150. -/
def badAgeInput : AgeValue → Prop
  | .missing => True
  | .nullV => True
  | .strV s => (pyParseInt s).elim True (fun n => n < 0 ∨ 150 < n)
  | .intV n => n < 0 ∨ 150 < n

/-- Helper: every malformed age parses to the default 30. -/
theorem parseAge_eq_30_of_badAge (a : AgeValue) (h : badAgeInput a) :
    parseAge a = 30 := by
  cases a with
  | missing => rfl
  | nullV => rfl
  | intV n =>
    simp only [badAgeInput] at h
    simp [parseAge, h]
  | strV s =>
    simp only [badAgeInput] at h
    cases hp : pyParseInt s with
    | none => simp [parseAge, hp]
    | some n =>
      rw [hp] at h
      simp only [Option.elim] at h
      simp [parseAge, hp, h]

/-- C10: a registration whose age field is missing, null, non-numeric, or
outside 0..150 still succeeds and silently records age 30 for the created or
updated patient. -/
theorem register_bad_age_records_30 (dbAvail dbWriteOk : Bool)
    (gen : String → List ℚ) (data : RegisterData) (st : RegState)
    (h : badAgeInput data.age) :
    (register_patient dbAvail dbWriteOk gen data st).1.success = true ∧
    (register_patient dbAvail dbWriteOk gen data st).1.patient.age = 30 := by
  have h30 := parseAge_eq_30_of_badAge _ h
  constructor
  · show (register_patient dbAvail dbWriteOk gen data st).1.success = true
    simp only [register_patient, h30]
    repeat' split
    all_goals rfl
  · show (register_patient dbAvail dbWriteOk gen data st).1.patient.age = 30
    simp only [register_patient, h30]
    repeat' split
    all_goals first | rfl | simp_all

/-- C10, witness: a non-numeric age string at a concrete registration. -/
theorem register_bad_age_records_30_witness :
    (register_patient false true (fun _ => List.replicate 128 0)
      { name := some "Test Person", age := .strV "abc", blood_type := some "A+",
        medical_history := none, photo := none, face_descriptor := none }
      regStateSeed).1.success = true ∧
    (register_patient false true (fun _ => List.replicate 128 0)
      { name := some "Test Person", age := .strV "abc", blood_type := some "A+",
        medical_history := none, photo := none, face_descriptor := none }
      regStateSeed).1.patient.age = 30 :=
  register_bad_age_records_30 false true (fun _ => List.replicate 128 0) _ _
    (by have hp : pyParseInt "abc" = none := by decide
        simp [badAgeInput, hp])

/-- An entry of the matches list of identify_patient (src/main.py:1839): a
stored patient together with the Euclidean distance between the query
descriptor and the stored one.  The numpy L2 norm is abstracted: the
distance enters as a rational, exactly as the downstream logic consumes it. -/
structure MatchEntry where
  patient : LPatient
  distance : ℚ
  deriving Repr, DecidableEq

/-- The identify response (src/main.py:1745-2155), with every field any
branch can set.  Branches that omit a field in the Python dict leave the
corresponding Option at none. -/
structure IdentifyResult where
  match_found : Bool
  patient : Option LPatient
  confidence : Option ℚ
  distance : Option ℚ
  method : String
  alternatives : List (LPatient × ℚ)
  message : Option String
  closest_patient : Option String
  suggested_patient : Option LPatient
  deriving Repr, DecidableEq

/-- The ascending stable sort of the matches (src/main.py:1893). -/
def sortByDistanceAsc (l : List MatchEntry) : List MatchEntry :=
  List.insertionSort (fun a b => a.distance ≤ b.distance) l

/-- Runner-up alternatives, indices 1 and 2 of the sorted matches
(src/main.py:1947-1950, 2078-2081, 2136-2138). -/
def altsFrom (ms : List MatchEntry) : List (LPatient × ℚ) :=
  ((ms.drop 1).take 2).map (fun m => (m.patient, round4 m.distance))

/-- Alternatives of the demo branches that scan the top three and drop the
demo patient (src/main.py:1984-1987, 2014-2017, 2036-2039, 2060-2063,
2122-2125). -/
def altsTop3Filtered (ms : List MatchEntry) : List (LPatient × ℚ) :=
  ((ms.take 3).filter (fun m => m.patient.id ≠ "5")).map
    (fun m => (m.patient, round4 m.distance))

/-- The effective match threshold (src/main.py:1901-1914): base 2.5,
widened to 1.5 times the best distance when the best match improves on the
second by more than 30 percent. -/
def matchThreshold (ms : List MatchEntry) : ℚ :=
  match ms with
  | m0 :: m1 :: _ =>
    let rel : ℚ := if 0 < m1.distance then (m1.distance - m0.distance) / m1.distance else 0
    if 3/10 < rel then max (5/2) (m0.distance * (3/2)) else 5/2
  | _ => 5/2

/-- Demo-closest auto-accept (src/main.py:1935-1959). -/
def demoClosestResult (best : MatchEntry) (ms : List MatchEntry) : IdentifyResult :=
  { match_found := true, patient := some best.patient,
    confidence := some (round4 (max (6/10) (1 - best.distance / max 15 (best.distance * 2)))),
    distance := some (round4 best.distance),
    method := "photo_upload_demo_match",
    alternatives := altsFrom ms,
    message := none, closest_patient := none, suggested_patient := none }

/-- Demo in the top three within distance 12 (src/main.py:1976-1996). -/
def demoTop3Result (dm : MatchEntry) (ms : List MatchEntry) : IdentifyResult :=
  { match_found := true, patient := some dm.patient,
    confidence := some (round4 (max (1/2) (1 - dm.distance / max 12 (dm.distance * 2)))),
    distance := some (round4 dm.distance),
    method := "photo_upload_demo_match_top3",
    alternatives := altsTop3Filtered ms,
    message := none, closest_patient := none, suggested_patient := none }

/-- Demo anywhere within distance 50 and not beaten by 50 percent
(src/main.py:1997-2048). -/
def demoLenientResult (dm : MatchEntry) (ms : List MatchEntry) : IdentifyResult :=
  { match_found := true, patient := some dm.patient,
    confidence := some (round4 (max (3/10) (1 - dm.distance / max 50 (dm.distance * 2)))),
    distance := some (round4 dm.distance),
    method := "photo_upload_demo_match_lenient",
    alternatives := altsTop3Filtered ms,
    message := none, closest_patient := none, suggested_patient := none }

/-- Demo anywhere within distance 100 (src/main.py:2049-2072). -/
def demoUltraResult (dm : MatchEntry) (ms : List MatchEntry) : IdentifyResult :=
  { match_found := true, patient := some dm.patient,
    confidence := some (round4 (max (1/5) (1 - dm.distance / max 100 (dm.distance * 2)))),
    distance := some (round4 dm.distance),
    method := "photo_upload_demo_match_ultra_lenient",
    alternatives := altsTop3Filtered ms,
    message := none, closest_patient := none, suggested_patient := none }

/-- The no-match path turning a near demo suggestion into an auto-match
(src/main.py:2109-2134). -/
def demoSuggestionResult (dm : MatchEntry) (ms : List MatchEntry) : IdentifyResult :=
  { match_found := true, patient := some dm.patient,
    confidence := some (round4 (max (1/5) (1 - dm.distance / max 100 (dm.distance * 2)))),
    distance := some (round4 dm.distance),
    method := "photo_upload_demo_match_suggestion",
    alternatives := altsTop3Filtered ms,
    message := none, closest_patient := none, suggested_patient := none }

/-- The standard threshold match (src/main.py:2075-2090). -/
def standardResult (best : MatchEntry) (ms : List MatchEntry) (threshold : ℚ) :
    IdentifyResult :=
  { match_found := true, patient := some best.patient,
    confidence := some (round4 (max 0 (1 - best.distance / threshold))),
    distance := some (round4 best.distance),
    method := "euclidean_distance",
    alternatives := altsFrom ms,
    message := none, closest_patient := none, suggested_patient := none }

/-- The final no-match response (src/main.py:2136-2155). -/
def finalNoMatchResult (ms : List MatchEntry) (suggested : Option LPatient) :
    IdentifyResult :=
  { match_found := false, patient := none, confidence := none,
    distance := (ms.head?).map (fun m => round4 m.distance),
    method := "euclidean_distance",
    alternatives := altsFrom ms,
    message := some (match suggested with
      | some sp => "No exact match found. " ++ sp.name ++
          " (Demo Patient) is close - auto-registering..."
      | none => "No match within threshold"),
    closest_patient := (ms.head?).map (fun m => m.patient.name),
    suggested_patient := suggested }

/-- The no-match flow (src/main.py:2091-2155): surface the closest
candidate; if the closest is the demo patient only suggest it, otherwise a
demo patient within distance 100 anywhere in the matches is auto-matched. -/
def noMatchFlow (ms : List MatchEntry) : IdentifyResult :=
  let closest_id := (ms.head?).map (fun m => m.patient.id)
  if closest_id = some "5" then
    finalNoMatchResult ms ((ms.head?).map (fun m => m.patient))
  else
    match ms.find? (fun m => m.patient.id = "5") with
    | some dm =>
      if dm.distance < 100 then demoSuggestionResult dm ms
      else finalNoMatchResult ms none
    | none => finalNoMatchResult ms none

/-- Standard matching after the demo cascade declined (src/main.py:2074+). -/
def standardOrNoMatch (ms : List MatchEntry) (threshold : ℚ) : IdentifyResult :=
  match ms with
  | best :: _ =>
    if best.distance < threshold then standardResult best ms threshold
    else noMatchFlow ms
  | [] => noMatchFlow []

/-- The escalating demo-lenience cascade once the demo patient is found in
the matches but is not the single closest (src/main.py:1961-2072): top-3
within 12, anywhere within 50 unless beaten by 50 percent, anywhere within
100; otherwise fall through to the standard rule. -/
def demoCascade (best dm : MatchEntry) (ms : List MatchEntry) (threshold : ℚ) :
    IdentifyResult :=
  if ms.findIdx (fun m => m.patient.id = "5") < 3 ∧ dm.distance < 12 then
    demoTop3Result dm ms
  else if dm.distance < 50 then
    if best.distance < dm.distance then
      if (if 0 < dm.distance then (dm.distance - best.distance) / dm.distance else 0)
          < 1/2 then
        demoLenientResult dm ms
      else standardOrNoMatch ms threshold
    else demoLenientResult dm ms
  else
    if dm.distance < 100 then demoUltraResult dm ms
    else standardOrNoMatch ms threshold

/-- The matching logic over the already sorted matches list
(src/main.py:1916-2155): the demo-override cascade for demo id 5, then the
standard rule. -/
def identifyCoreSorted (ms : List MatchEntry) (threshold : ℚ) : IdentifyResult :=
  match ms with
  | [] => standardOrNoMatch [] threshold
  | best :: _ =>
    if best.patient.id = "5" then demoClosestResult best ms
    else
      match ms.find? (fun m => m.patient.id = "5") with
      | some dm => demoCascade best dm ms threshold
      | none => standardOrNoMatch ms threshold

/-- The matching logic over the assembled matches list
(src/main.py:1892-2155): sort ascending, compute the widened threshold, then
run the cascade. -/
def identifyCore (matches0 : List MatchEntry) : IdentifyResult :=
  identifyCoreSorted (sortByDistanceAsc matches0)
    (matchThreshold (sortByDistanceAsc matches0))

/-- The face_descriptor field of the identify request: absent/null, or a
JSON array of numbers. -/
inductive DescInput
  | absent
  | list (l : List ℚ)

/-- The demo-mode short circuit for an absent or empty descriptor
(src/main.py:1740-1787).  The seeded legacy table contains the demo patient
(id 5), so the uniformly random fallback is unreachable; it is modelled with
patient none. -/
def demoModeResult : IdentifyResult :=
  match PATIENTS_LEGACY.find? (fun p => p.id = "5") with
  | some p =>
    { match_found := true, patient := some p, confidence := some (95/100),
      distance := some 0, method := "demo_mode", alternatives := [],
      message := none, closest_patient := none, suggested_patient := none }
  | none =>
    { match_found := true, patient := none, confidence := some (1/2),
      distance := none, method := "fallback_random", alternatives := [],
      message := none, closest_patient := none, suggested_patient := none }

/-- The validation rejection for a malformed descriptor (src/main.py:1791):
the returned dict carries only match_found false and the message. -/
def validationResult : IdentifyResult :=
  { match_found := false, patient := none, confidence := none, distance := none,
    method := "", alternatives := [],
    message := some "face_descriptor must be a 128-length array",
    closest_patient := none, suggested_patient := none }

/-- identify_patient (src/main.py:1733-2155).  matches is the list of
(stored patient, L2 distance) pairs the database and legacy scans assemble
for this query (src/main.py:1794-1890); it is only consulted when the
descriptor is a well-formed 128-length array.  (matchList renames the
source's matches variable, a reserved word here.) -/
def identify_patient (desc : DescInput) (matchList : List MatchEntry) : IdentifyResult :=
  match desc with
  | .absent => demoModeResult
  | .list l =>
    if l.isEmpty then demoModeResult
    else if l.length ≠ 128 then validationResult
    else identifyCore matchList

/-- C7: a present, non-empty descriptor whose length differs from 128 makes
identify return the validation outcome — match_found false with the
validation message and no alternatives — without consulting the stored
candidates at all (the result is the same constant for every match list),
and the total model never raises. -/
theorem identify_invalid_descriptor_rejects (l : List ℚ) (ml : List MatchEntry)
    (hne : l ≠ []) (hlen : l.length ≠ 128) :
    identify_patient (.list l) ml = validationResult ∧
    validationResult.match_found = false ∧
    validationResult.message = some "face_descriptor must be a 128-length array" ∧
    validationResult.alternatives = [] := by
  refine ⟨?_, rfl, rfl, rfl⟩
  simp only [identify_patient]
  rw [if_neg (by simp [List.isEmpty_iff, hne]), if_pos hlen]

/-- C7, witness: a two-element descriptor is rejected identically for a
non-trivial candidate list. -/
theorem identify_invalid_descriptor_rejects_witness :
    identify_patient (.list [0, 0]) [{ patient := pRajesh, distance := 3 }] =
      validationResult ∧
    validationResult.match_found = false ∧
    validationResult.message = some "face_descriptor must be a 128-length array" ∧
    validationResult.alternatives = [] :=
  identify_invalid_descriptor_rejects [0, 0] [{ patient := pRajesh, distance := 3 }]
    (List.cons_ne_nil _ _) (by decide)

/-- C4: when the single closest stored candidate of a valid 128-length query
is the demo patient (id 5), identify auto-accepts regardless of the distance
d, with confidence round4(max(0.6, 1 - d / max(15, 2 d))) and the
photo_upload_demo_match method tag. -/
theorem identify_demo_closest_auto_accepts (l : List ℚ) (ml : List MatchEntry)
    (best : MatchEntry) (rest : List MatchEntry)
    (hlen : l.length = 128)
    (hsort : sortByDistanceAsc ml = best :: rest)
    (hid : best.patient.id = "5") :
    (identify_patient (.list l) ml).match_found = true ∧
    (identify_patient (.list l) ml).confidence =
      some (round4 (max (6/10) (1 - best.distance / max 15 (best.distance * 2)))) ∧
    (identify_patient (.list l) ml).method = "photo_upload_demo_match" := by
  have hne : ¬ l.isEmpty = true := by
    rw [List.isEmpty_iff]
    intro h
    rw [h] at hlen
    simp at hlen
  have h128 : ¬ l.length ≠ 128 := by simp [hlen]
  simp only [identify_patient]
  rw [if_neg hne, if_neg h128]
  simp only [identifyCore, hsort, identifyCoreSorted, hid]
  exact ⟨rfl, rfl, rfl⟩

/-- C4, witness: the demo patient as the closest match at distance 7. -/
theorem identify_demo_closest_auto_accepts_witness :
    (identify_patient (.list (List.replicate 128 0))
      [{ patient := pAhmad, distance := 7 }, { patient := pRajesh, distance := 9 }]).match_found
      = true ∧
    (identify_patient (.list (List.replicate 128 0))
      [{ patient := pAhmad, distance := 7 }, { patient := pRajesh, distance := 9 }]).confidence
      = some (round4 (max (6/10) (1 - (7 : ℚ) / max 15 ((7 : ℚ) * 2)))) ∧
    (identify_patient (.list (List.replicate 128 0))
      [{ patient := pAhmad, distance := 7 }, { patient := pRajesh, distance := 9 }]).method
      = "photo_upload_demo_match" :=
  identify_demo_closest_auto_accepts (List.replicate 128 0) _
    { patient := pAhmad, distance := 7 } [{ patient := pRajesh, distance := 9 }]
    (by simp)
    (by norm_num [sortByDistanceAsc, List.insertionSort, List.orderedInsert])
    rfl

/-- The candidate list of the C9 counterexample: three closer non-demo
patients and the demo patient in fourth position at distance 40. -/
def c9Matches : List MatchEntry :=
  [{ patient := pRajesh, distance := 30 }, { patient := pFatima, distance := 31 },
   { patient := pJohn, distance := 32 }, { patient := pAhmad, distance := 40 }]

/-- C9, counterexample: the alternatives list is NOT always capped at 2.  In
the lenient demo branch (src/main.py:2014-2017) the alternatives are the top
three entries filtered by id, so when the demo patient sits outside the top
three (position 4, distance 40 < 50, best 30 not 50 percent better) the
response carries 3 runner-up alternatives. -/
theorem identify_three_alternatives_counterexample :
    (identify_patient (.list (List.replicate 128 0)) c9Matches).alternatives.length = 3 ∧
    (identify_patient (.list (List.replicate 128 0)) c9Matches).method =
      "photo_upload_demo_match_lenient" := by
  have hsort : sortByDistanceAsc c9Matches = c9Matches := by
    norm_num [c9Matches, sortByDistanceAsc, List.insertionSort, List.orderedInsert]
  have hne : ¬ (List.replicate (n := 128) (0 : ℚ)).isEmpty = true := by simp
  have h128 : ¬ (List.replicate (n := 128) (0 : ℚ)).length ≠ 128 := by simp
  simp only [identify_patient]
  rw [if_neg hne, if_neg h128]
  simp only [identifyCore, hsort, identifyCoreSorted]
  norm_num +decide [c9Matches, pRajesh, pFatima, pJohn, pAhmad, List.find?,
    List.findIdx, List.findIdx.go, demoCascade, demoLenientResult,
    altsTop3Filtered, List.take, List.filter]

/-- Helper: the drop-one-take-two alternatives hold at most 2 entries. -/
theorem altsFrom_length_le (ms : List MatchEntry) : (altsFrom ms).length ≤ 2 := by
  simp only [altsFrom, List.length_map, List.length_take]
  omega

/-- Helper: the top-three filtered alternatives hold at most 3 entries. -/
theorem altsTop3_length_le (ms : List MatchEntry) :
    (altsTop3Filtered ms).length ≤ 3 := by
  simp only [altsTop3Filtered, List.length_map]
  calc ((ms.take 3).filter (fun m => m.patient.id ≠ "5")).length
      ≤ (ms.take 3).length := List.length_filter_le _ _
    _ ≤ 3 := by simp [List.length_take]

/-- Helper: when the predicate hits before position n and a match exists,
some element of the first n entries satisfies it. -/
theorem exists_mem_take_of_findIdx_lt {α : Type} (p : α → Bool) (ms : List α)
    (n : ℕ) (hidx : ms.findIdx p < n) (hfound : (ms.find? p).isSome) :
    ∃ x ∈ ms.take n, p x := by
  induction ms generalizing n with
  | nil => simp [List.find?] at hfound
  | cons a tl ih =>
    by_cases hp : p a
    · cases n with
      | zero => exact absurd hidx (Nat.not_lt_zero _)
      | succ n => exact ⟨a, by simp, hp⟩
    · have hfi : (a :: tl).findIdx p = tl.findIdx p + 1 := by
        simp [List.findIdx_cons, hp]
      cases n with
      | zero => exact absurd hidx (Nat.not_lt_zero _)
      | succ n =>
        rw [hfi] at hidx
        have hfound2 : (tl.find? p).isSome := by
          simpa [List.find?_cons, hp] using hfound
        obtain ⟨x, hxm, hxp⟩ := ih n (by omega) hfound2
        exact ⟨x, by simp [hxm], hxp⟩

/-- Helper: when the demo patient occurs within the top three, filtering it
out of the top three leaves at most 2 alternatives. -/
theorem altsTop3_length_le_two_of_demo (ms : List MatchEntry) (dm : MatchEntry)
    (hfind : ms.find? (fun m => m.patient.id = "5") = some dm)
    (hidx : ms.findIdx (fun m => m.patient.id = "5") < 3) :
    (altsTop3Filtered ms).length ≤ 2 := by
  obtain ⟨x, hxm, hxp⟩ :=
    exists_mem_take_of_findIdx_lt (fun m => m.patient.id = "5") ms 3 hidx
      (by simp [hfind])
  have hlt : ((ms.take 3).filter (fun m => m.patient.id ≠ "5")).length <
      (ms.take 3).length := by
    apply List.length_filter_lt_length_iff_exists.mpr
    exact ⟨x, hxm, by simp_all⟩
  have h3 : (ms.take 3).length ≤ 3 := by simp [List.length_take]
  simp only [altsTop3Filtered, List.length_map]
  omega

/-- Helper: the standard-or-no-match tail produces one of the standard
match, the final no-match, or the demo-suggestion auto-match. -/
theorem standardOrNoMatch_cases (ms : List MatchEntry) (th : ℚ) :
    (∃ b, standardOrNoMatch ms th = standardResult b ms th) ∨
    (∃ s, standardOrNoMatch ms th = finalNoMatchResult ms s) ∨
    (∃ dm, standardOrNoMatch ms th = demoSuggestionResult dm ms) := by
  simp only [standardOrNoMatch, noMatchFlow]
  repeat' split
  all_goals first
    | exact Or.inl ⟨_, rfl⟩
    | exact Or.inr (Or.inl ⟨_, rfl⟩)
    | exact Or.inr (Or.inr ⟨_, rfl⟩)

/-- Helper: bound for the standard-or-no-match tail: its alternatives stay
at 2 except in the demo-suggestion auto-match. -/
theorem standardOrNoMatch_bound (ms : List MatchEntry) (th : ℚ) :
    (standardOrNoMatch ms th).alternatives.length ≤
      (if (standardOrNoMatch ms th).method = "photo_upload_demo_match_lenient" ∨
          (standardOrNoMatch ms th).method = "photo_upload_demo_match_ultra_lenient" ∨
          (standardOrNoMatch ms th).method = "photo_upload_demo_match_suggestion"
        then 3 else 2) := by
  have hsm : ∀ (b : MatchEntry), (standardResult b ms th).method = "euclidean_distance" :=
    fun _ => rfl
  have hfm : ∀ (s : Option LPatient), (finalNoMatchResult ms s).method = "euclidean_distance" :=
    fun _ => rfl
  have hgm : ∀ (dm : MatchEntry),
      (demoSuggestionResult dm ms).method = "photo_upload_demo_match_suggestion" :=
    fun _ => rfl
  rcases standardOrNoMatch_cases ms th with ⟨b, hb⟩ | ⟨s, hs⟩ | ⟨dm, hdm⟩
  · rw [hb, hsm, if_neg (by decide)]
    exact altsFrom_length_le _
  · rw [hs, hfm, if_neg (by decide)]
    exact altsFrom_length_le _
  · rw [hdm, hgm, if_pos (by decide)]
    exact altsTop3_length_le _

/-- Helper: the alternatives bound through the demo cascade. -/
theorem demoCascade_bound (best dm : MatchEntry) (ms : List MatchEntry) (th : ℚ)
    (hfind : ms.find? (fun m => m.patient.id = "5") = some dm) :
    (demoCascade best dm ms th).alternatives.length ≤
      (if (demoCascade best dm ms th).method = "photo_upload_demo_match_lenient" ∨
          (demoCascade best dm ms th).method = "photo_upload_demo_match_ultra_lenient" ∨
          (demoCascade best dm ms th).method = "photo_upload_demo_match_suggestion"
        then 3 else 2) := by
  unfold demoCascade
  by_cases htop : ms.findIdx (fun m => m.patient.id = "5") < 3 ∧ dm.distance < 12
  · simp only [if_pos htop]
    rw [show (demoTop3Result dm ms).method = "photo_upload_demo_match_top3" from rfl,
      if_neg (by decide)]
    exact altsTop3_length_le_two_of_demo ms dm hfind htop.1
  · simp only [if_neg htop]
    by_cases h50 : dm.distance < 50
    · simp only [if_pos h50]
      by_cases hbd : best.distance < dm.distance
      · simp only [if_pos hbd]
        by_cases hrat : (if 0 < dm.distance then
            (dm.distance - best.distance) / dm.distance else 0) < 1/2
        · simp only [if_pos hrat]
          rw [show (demoLenientResult dm ms).method = "photo_upload_demo_match_lenient"
              from rfl,
            if_pos (by decide)]
          exact altsTop3_length_le _
        · simp only [if_neg hrat]
          exact standardOrNoMatch_bound _ _
      · simp only [if_neg hbd]
        rw [show (demoLenientResult dm ms).method = "photo_upload_demo_match_lenient"
            from rfl,
          if_pos (by decide)]
        exact altsTop3_length_le _
    · simp only [if_neg h50]
      by_cases h100 : dm.distance < 100
      · simp only [if_pos h100]
        rw [show (demoUltraResult dm ms).method = "photo_upload_demo_match_ultra_lenient"
            from rfl,
          if_pos (by decide)]
        exact altsTop3_length_le _
      · simp only [if_neg h100]
        exact standardOrNoMatch_bound _ _

/-- Helper: the per-branch alternatives bound over the sorted matches. -/
theorem identifyCoreSorted_bound (ms : List MatchEntry) (th : ℚ) :
    (identifyCoreSorted ms th).alternatives.length ≤
      (if (identifyCoreSorted ms th).method = "photo_upload_demo_match_lenient" ∨
          (identifyCoreSorted ms th).method = "photo_upload_demo_match_ultra_lenient" ∨
          (identifyCoreSorted ms th).method = "photo_upload_demo_match_suggestion"
        then 3 else 2) := by
  cases ms with
  | nil => exact standardOrNoMatch_bound [] th
  | cons best rest =>
    simp only [identifyCoreSorted]
    by_cases hid : best.patient.id = "5"
    · simp only [if_pos hid]
      rw [show (demoClosestResult best (best :: rest)).method = "photo_upload_demo_match"
          from rfl,
        if_neg (by decide)]
      exact altsFrom_length_le _
    · simp only [if_neg hid]
      cases hfind : (best :: rest).find? (fun m => m.patient.id = "5") with
      | none => exact standardOrNoMatch_bound _ _
      | some dm => exact demoCascade_bound best dm (best :: rest) th hfind

/-- C9, amended: for every valid 128-length query, the alternatives list
holds at most 2 entries in the demo-closest, top-3, standard and plain
no-match branches, and at most 3 entries overall — the lenient,
ultra-lenient and suggestion demo branches can surface a third runner-up
when the demo patient sits outside the top three. -/
theorem identify_alternatives_bound (l : List ℚ) (ml : List MatchEntry)
    (hlen : l.length = 128) :
    (identify_patient (.list l) ml).alternatives.length ≤
      (if (identify_patient (.list l) ml).method = "photo_upload_demo_match_lenient" ∨
          (identify_patient (.list l) ml).method = "photo_upload_demo_match_ultra_lenient" ∨
          (identify_patient (.list l) ml).method = "photo_upload_demo_match_suggestion"
        then 3 else 2) := by
  have hne : ¬ l.isEmpty = true := by
    rw [List.isEmpty_iff]
    intro h
    rw [h] at hlen
    simp at hlen
  have h128 : ¬ l.length ≠ 128 := by simp [hlen]
  simp only [identify_patient, if_neg hne, if_neg h128]
  simp only [identifyCore]
  exact identifyCoreSorted_bound _ _

/-- C9, witness for the amended bound: in the demo-closest configuration of
the C4 witness the bound evaluates to 2 and the single alternative list has
1 entry. -/
theorem identify_alternatives_bound_witness :
    (identify_patient (.list (List.replicate 128 0))
      [{ patient := pAhmad, distance := 7 }, { patient := pRajesh, distance := 9 }]).alternatives.length ≤
      (if (identify_patient (.list (List.replicate 128 0))
            [{ patient := pAhmad, distance := 7 },
             { patient := pRajesh, distance := 9 }]).method =
          "photo_upload_demo_match_lenient" ∨
          (identify_patient (.list (List.replicate 128 0))
            [{ patient := pAhmad, distance := 7 },
             { patient := pRajesh, distance := 9 }]).method =
          "photo_upload_demo_match_ultra_lenient" ∨
          (identify_patient (.list (List.replicate 128 0))
            [{ patient := pAhmad, distance := 7 },
             { patient := pRajesh, distance := 9 }]).method =
          "photo_upload_demo_match_suggestion"
        then 3 else 2) :=
  identify_alternatives_bound (List.replicate 128 0)
    [{ patient := pAhmad, distance := 7 }, { patient := pRajesh, distance := 9 }]
    (by simp)

end MedLink
